import Mathlib

/-!
Verification development for the prompt-optimization backend.

The definitions below are shallow embeddings of the pure computational parts
of the Python sources:

* `src/backend/base/langflow/api/v1/ai_providers.py`
  (`generate_meta_prompt`, `generate_variations`, `generate_test_cases`,
  `evaluate_response`),
* `src/backend/base/langflow/api/v1/evaluation_agents.py`
  (`PromptEvaluationSystem._extract_score`,
  `PromptEvaluationSystem._fallback_evaluation`),
* `src/backend/base/langflow/components/prompts/optimizer.py`
  (`PromptOptimizerComponent._evaluate_prompts`, score aggregation and
  best-variation selection).

Network calls to LLM providers are external collaborators: every embedded
function takes the provider's reply text (an `Option String`, `none`
standing for a null body) as an explicit argument and models the
computation the Python code performs on it.  Python standard-library
collaborators (`hashlib.md5`, the seeded `random` generator) are taken as
explicit function parameters, so theorems quantify over every possible
behaviour of those collaborators.  Strings are treated at the level of
Unicode code points; the character-class predicates (`pySpace`,
`Char.isDigit`) cover the ASCII ranges the Python code is exercised with.
-/

/-! ## Python string primitives -/

/-- Whitespace characters recognised by Python's `str.strip()` and by the
`\s` class of the `re` module (ASCII range): space, tab, newline, carriage
return, vertical tab, form feed. -/
def pySpace (c : Char) : Bool :=
  c = ' ' || c = '\t' || c = '\n' || c = '\r' || c = '\x0b' || c = '\x0c'

/-- Python `str.strip()` on a list of characters: drop whitespace from both
ends. -/
def pyStripList (l : List Char) : List Char :=
  ((l.dropWhile pySpace).reverse.dropWhile pySpace).reverse

/-- Python `str.strip()`. -/
def pyStrip (s : String) : String := String.mk (pyStripList s.toList)

/-- Python `s[:n]`: the first `n` characters of `s`. -/
def pyTake (n : ℕ) (s : String) : String := String.mk (s.toList.take n)

/-- Python `content.split("\n")` on a list of characters.  The result is
never empty: an input without newlines yields one segment. -/
def splitLinesList : List Char → List (List Char)
  | [] => [[]]
  | c :: rest =>
    if c = '\n' then [] :: splitLinesList rest
    else
      match splitLinesList rest with
      | [] => [[c]]
      | l :: ls => (c :: l) :: ls

/-- Python `content.split("\n")`. -/
def splitLines (s : String) : List String := (splitLinesList s.toList).map String.mk

/-- Python `content.split("\n\n")` on a list of characters: split on
non-overlapping occurrences of two consecutive newlines, scanning left to
right. -/
def splitBlankList : List Char → List (List Char)
  | [] => [[]]
  | '\n' :: '\n' :: rest => [] :: splitBlankList rest
  | c :: rest =>
    match splitBlankList rest with
    | [] => [[c]]
    | l :: ls => (c :: l) :: ls

/-- Python `content.split("\n\n")`. -/
def splitBlank (s : String) : List String := (splitBlankList s.toList).map String.mk

/-! ## Empty-reply validation (`generate_meta_prompt`)

`generate_meta_prompt` in `ai_providers.py` extracts the completion text
from the provider response and raises
`ValueError("... returned empty content")` when the text is null or
whitespace-only (`if not content or not content.strip()`), otherwise
returns the text verbatim.  A `none` argument models a null completion
body. -/

/-- The completion-text validation performed by `generate_meta_prompt`:
fail on a null or whitespace-only provider reply, otherwise return the
reply verbatim. -/
def generate_meta_prompt (content : Option String) : Except String String :=
  match content with
  | none => Except.error "OpenAI API returned empty content"
  | some c => if pyStrip c = "" then Except.error "OpenAI API returned empty content" else Except.ok c

/-! ## Variation parsing (`generate_variations`)

`generate_variations` splits the reply into lines, strips each line, and
flushes the current group whenever a stripped line equals `"---"`; groups
are joined back with `"\n"`.  If no group was produced, the whole reply is
the single variation.  A null reply is replaced by `""`
(`content or ""`), never rejected. -/

/-- The line loop of `generate_variations`: `vars` is the list of finished
variations, `cur` the stripped lines of the variation being accumulated. -/
def variationsLoop : List String → List String → List String → List String
  | [], vars, cur =>
    if cur.isEmpty then vars else vars ++ [String.intercalate "\n" cur]
  | line :: rest, vars, cur =>
    if pyStrip line = "---" then
      if cur.isEmpty then variationsLoop rest vars []
      else variationsLoop rest (vars ++ [String.intercalate "\n" cur]) []
    else variationsLoop rest vars (cur ++ [pyStrip line])

/-- The parsing stage of `generate_variations` applied to the reply text. -/
def parseVariations (content : String) : List String :=
  let vars := variationsLoop (splitLines content) [] []
  if vars.isEmpty then [content] else vars

/-- `generate_variations` as a function of the provider reply (`none` for a
null completion body, which the code replaces by `""`). -/
def generate_variations (reply : Option String) : List String :=
  parseVariations (reply.getD "")

/-! ## Test-case parsing (`generate_test_cases`) -/

/-- The numbered-line check of `generate_test_cases`:
`line and line[0].isdigit() and line[1:].startswith('.')`, i.e. the first
character is a digit and the second character is a period. -/
def startsNewTestCase (l : String) : Bool :=
  match l.toList with
  | c1 :: c2 :: _ => c1.isDigit && c2 = '.'
  | _ => false

/-- The line loop of `generate_test_cases`: a numbered line flushes the
current group and opens a new one; other lines are appended to the open
group, or dropped when no group is open. -/
def testCasesLoop : List String → List String → List String → List String
  | [], acc, cur =>
    if cur.isEmpty then acc else acc ++ [String.intercalate "\n" cur]
  | line :: rest, acc, cur =>
    if startsNewTestCase (pyStrip line) then
      if cur.isEmpty then testCasesLoop rest acc [pyStrip line]
      else testCasesLoop rest (acc ++ [String.intercalate "\n" cur]) [pyStrip line]
    else
      if cur.isEmpty then testCasesLoop rest acc cur
      else testCasesLoop rest acc (cur ++ [pyStrip line])

/-- The parsing stage of `generate_test_cases`: numbered groups first, then
the blank-line paragraph fallback, then the whole reply as one test case. -/
def parseTestCases (content : String) : List String :=
  let tcs := testCasesLoop (splitLines content) [] []
  let tcs2 :=
    if tcs.isEmpty then ((splitBlank content).map pyStrip).filter (fun p => p != "") else tcs
  if tcs2.isEmpty then [content] else tcs2

/-- `generate_test_cases` as a function of the provider reply (`none` for a
null completion body, which the code replaces by `""`). -/
def generate_test_cases (reply : Option String) : List String :=
  parseTestCases (reply.getD "")

/-! ## Numeric score extraction

`evaluate_response` in `ai_providers.py` strips the evaluator reply and
searches it with `re.search(r'(\d+(\.\d+)?)', content)`; a match is
converted to `float` and clamped with `max(0, min(10, score))`, otherwise
the default `5.0` is returned.

`PromptEvaluationSystem._extract_score` in `evaluation_agents.py` tries
three patterns in order —
`score\s*(?:of|is|:)?\s*(\d+(?:\.\d+)?)` (IGNORECASE), then
`(\d+(?:\.\d+)?)\s*/\s*10`, then
`(?:score|rating|evaluation)[^.]*?(\d+(?:\.\d+)?)` (IGNORECASE) —
clamps the first captured number to `[0, 10]`, and returns the default
`7.0` when none matches.  The matchers below realise the leftmost-match
semantics of `re.search` for these concrete patterns; the greedy and lazy
quantifiers collapse to the deterministic scans implemented here because
whitespace, the keyword alternatives, digits, `'.'` and `'/'` are pairwise
disjoint character classes. -/

/-- Greedy match of `\d+(\.\d+)?` at the head of `cs`: the matched
characters and the rest, or `none` when `cs` does not start with a digit. -/
def matchNumber (cs : List Char) : Option (List Char × List Char) :=
  match cs with
  | [] => none
  | c :: _ =>
    if c.isDigit then
      let d := cs.takeWhile Char.isDigit
      let r := cs.dropWhile Char.isDigit
      match r with
      | '.' :: r2 =>
        match r2 with
        | c2 :: _ =>
          if c2.isDigit then
            some (d ++ '.' :: r2.takeWhile Char.isDigit, r2.dropWhile Char.isDigit)
          else some (d, r)
        | [] => some (d, r)
      | _ => some (d, r)
    else none

/-- `re.search(r'(\d+(\.\d+)?)', ·)`: the leftmost number in the text. -/
def searchNumber : List Char → Option (List Char)
  | [] => none
  | c :: rest =>
    match matchNumber (c :: rest) with
    | some (cap, _) => some cap
    | none => searchNumber rest

/-- Value of a captured `\d+(\.\d+)?` group, as Python `float(...)` reads
it (exact rational value of the decimal literal). -/
def parseNumber (l : List Char) : ℚ :=
  let intPart := l.takeWhile Char.isDigit
  let rest := l.dropWhile Char.isDigit
  let intVal : ℕ := intPart.foldl (fun a c => 10 * a + (c.toNat - 48)) 0
  match rest with
  | '.' :: frac =>
    (intVal : ℚ) + (frac.foldl (fun a c => 10 * a + (c.toNat - 48)) 0 : ℚ) / (10 ^ frac.length)
  | _ => (intVal : ℚ)

/-- Python `max(0, min(10, score))`. -/
def clampScore (x : ℚ) : ℚ := max 0 (min 10 x)

/-- Score extraction of `evaluate_response`: strip the reply, search for
the leftmost number, clamp it to `[0, 10]`; default `5.0` when the reply
holds no number. -/
def evaluate_response (content : String) : ℚ :=
  match searchNumber (pyStrip content).toList with
  | some cap => clampScore (parseNumber cap)
  | none => 5

/-- Case-insensitive literal match: returns the rest of `cs` after the
keyword `kw` (given in lower case), or `none`. -/
def matchKeywordCI : List Char → List Char → Option (List Char)
  | [], rest => some rest
  | _ :: _, [] => none
  | k :: kt, c :: ct => if c.toLower = k then matchKeywordCI kt ct else none

/-- Match of pattern 1, `score\s*(?:of|is|:)?\s*(\d+(?:\.\d+)?)`
(IGNORECASE), anchored at the head of `cs`: after the keyword, skip
whitespace, optionally skip one of `of`, `is`, `:`, skip whitespace, and
capture the number. -/
def pattern1At (cs : List Char) : Option (List Char) :=
  match matchKeywordCI ['s', 'c', 'o', 'r', 'e'] cs with
  | none => none
  | some r1 =>
    let r2 := r1.dropWhile pySpace
    let r3 :=
      match matchKeywordCI ['o', 'f'] r2 with
      | some x => x
      | none =>
        match matchKeywordCI ['i', 's'] r2 with
        | some x => x
        | none =>
          match r2 with
          | ':' :: x => x
          | _ => r2
    (matchNumber (r3.dropWhile pySpace)).map Prod.fst

/-- `re.search` with pattern 1: try every start position left to right. -/
def pattern1Search : List Char → Option (List Char)
  | [] => none
  | c :: rest =>
    match pattern1At (c :: rest) with
    | some cap => some cap
    | none => pattern1Search rest

/-- The `\s*/\s*10` tail of pattern 2, matched after the captured number. -/
def slashTenAfter (cs : List Char) : Bool :=
  match cs.dropWhile pySpace with
  | '/' :: r2 =>
    match r2.dropWhile pySpace with
    | '1' :: '0' :: _ => true
    | _ => false
  | _ => false

/-- Match of pattern 2, `(\d+(?:\.\d+)?)\s*/\s*10`, anchored at the head of
`cs`: the whole digit run, a fractional part when it is followed by the
`/10` tail, the bare integer part otherwise. -/
def pattern2At (cs : List Char) : Option (List Char) :=
  match cs with
  | [] => none
  | c :: _ =>
    if c.isDigit then
      let d := cs.takeWhile Char.isDigit
      let r := cs.dropWhile Char.isDigit
      match r with
      | '.' :: r2 =>
        match r2 with
        | c2 :: _ =>
          if c2.isDigit then
            if slashTenAfter (r2.dropWhile Char.isDigit) then
              some (d ++ '.' :: r2.takeWhile Char.isDigit)
            else if slashTenAfter r then some d
            else none
          else if slashTenAfter r then some d else none
        | [] => if slashTenAfter r then some d else none
      | _ => if slashTenAfter r then some d else none
    else none

/-- `re.search` with pattern 2. -/
def pattern2Search : List Char → Option (List Char)
  | [] => none
  | c :: rest =>
    match pattern2At (c :: rest) with
    | some cap => some cap
    | none => pattern2Search rest

/-- The lazy `[^.]*?(\d+(?:\.\d+)?)` tail of pattern 3: scan forward for
the first digit, failing on a period or at the end of the text. -/
def lazyScanToDigit : List Char → Option (List Char)
  | [] => none
  | c :: rest =>
    if c.isDigit then (matchNumber (c :: rest)).map Prod.fst
    else if c = '.' then none
    else lazyScanToDigit rest

/-- Match of pattern 3, `(?:score|rating|evaluation)[^.]*?(\d+(?:\.\d+)?)`
(IGNORECASE), anchored at the head of `cs`. -/
def pattern3At (cs : List Char) : Option (List Char) :=
  match matchKeywordCI ['s', 'c', 'o', 'r', 'e'] cs with
  | some r => lazyScanToDigit r
  | none =>
    match matchKeywordCI ['r', 'a', 't', 'i', 'n', 'g'] cs with
    | some r => lazyScanToDigit r
    | none =>
      match matchKeywordCI ['e', 'v', 'a', 'l', 'u', 'a', 't', 'i', 'o', 'n'] cs with
      | some r => lazyScanToDigit r
      | none => none

/-- `re.search` with pattern 3. -/
def pattern3Search : List Char → Option (List Char)
  | [] => none
  | c :: rest =>
    match pattern3At (c :: rest) with
    | some cap => some cap
    | none => pattern3Search rest

/-- `PromptEvaluationSystem._extract_score`: the three patterns in order,
first match clamped to `[0, 10]`, default `7.0`. -/
def extract_score (text : String) : ℚ :=
  match pattern1Search text.toList with
  | some cap => clampScore (parseNumber cap)
  | none =>
    match pattern2Search text.toList with
    | some cap => clampScore (parseNumber cap)
    | none =>
      match pattern3Search text.toList with
      | some cap => clampScore (parseNumber cap)
      | none => 7

/-! ## Deterministic fallback scorer
(`PromptEvaluationSystem._fallback_evaluation`)

The Python code hashes
`f"{self.system_prompt[:100]}{self.user_input[:50]}{self.criterion_name}"`
with `hashlib.md5`, seeds `random` with the digest, draws
`base_score = 5.0 + random.random() * 4.5`, adds
`min(1.0, len(system_prompt) / 500.0) * random.random()`, clamps at `10.0`
and rounds to one decimal with Python's banker-rounding `round`; the
reasoning is `random.choice` over three templates interpolating the
criterion name and description, followed by a detail sentence selected by
the final score.  `hashlib.md5` and the seeded generator are standard
library collaborators, taken here as parameters: `md5int` stands for
`int(md5(x).hexdigest(), 16)` and `seeded n` for the stream of draws the
generator produces after `random.seed(n)` (`randFloat i` the `i`-th
`random.random()` result, `choiceIdx n` the index `random.choice` picks
from a list of length `n`). -/

/-- The draws a seeded `random` generator delivers: the successive
`random.random()` results and the index picked by `random.choice`. -/
structure PyRandom where
  randFloat : ℕ → ℚ
  choiceIdx : ℕ → ℕ

/-- Result record of `_fallback_evaluation`. -/
structure FallbackResult where
  score : ℚ
  reasoning : String
  agent : String
  deriving DecidableEq

/-- Python `round` on a rational: round half to even. -/
def pyRound (q : ℚ) : ℤ :=
  let f := ⌊q⌋
  if q - f < 1 / 2 then f
  else if q - f > 1 / 2 then f + 1
  else if f % 2 = 0 then f else f + 1

/-- The generator state `_fallback_evaluation` works with: seed the
collaborator generator with the hash of the first 100 characters of the
system prompt, the first 50 of the user input, and the criterion name. -/
def fallback_rng (md5int : String → ℕ) (seeded : ℕ → PyRandom)
    (system_prompt user_input criterion_name : String) : PyRandom :=
  seeded (md5int (pyTake 100 system_prompt ++ pyTake 50 user_input ++ criterion_name))

/-- `base_score = 5.0 + random.random() * 4.5`. -/
def fallback_base_score (r : PyRandom) : ℚ := 5 + r.randFloat 0 * (9 / 2)

/-- `length_bonus = min(1.0, len(self.system_prompt) / 500.0)`. -/
def fallback_length_bonus (system_prompt : String) : ℚ :=
  min 1 ((system_prompt.length : ℚ) / 500)

/-- `final_score`: clamp the bonus-adjusted base score at `10.0`, then
round to one decimal place. -/
def fallback_final_score (r : PyRandom) (system_prompt : String) : ℚ :=
  (pyRound ((min 10 (fallback_base_score r + fallback_length_bonus system_prompt * r.randFloat 1)) * 10) : ℚ) / 10

/-- An ASCII apostrophe, kept out of the string literals below. -/
def apos : String := String.mk [Char.ofNat 39]

/-- The three reasoning templates of `_fallback_evaluation`, interpolating
the criterion name and description. -/
def reasoning_templates (nm ds : String) : List String :=
  [ "The system prompt provides clear guidance for handling " ++ apos ++ nm ++ apos
      ++ ". It effectively addresses " ++ ds ++ "."
  , "This system prompt demonstrates strengths in " ++ nm
      ++ ". It adequately covers aspects of " ++ ds ++ "."
  , "When analyzing this system prompt against " ++ nm
      ++ ", it shows good alignment with " ++ ds ++ "." ]

/-- The score-dependent detail sentence appended to the chosen template. -/
def fallback_details (score : ℚ) (ds : String) : String :=
  if score > 17 / 2 then
    "The prompt is exceptionally well-designed, providing comprehensive guidance for "
      ++ ds ++ ". It anticipates user needs and sets clear expectations for responses."
  else if score > 7 then
    "The prompt handles " ++ ds
      ++ " well, though there are minor areas for improvement in specificity and coverage of edge cases."
  else
    "While functional, the prompt could be enhanced with more detailed guidelines related to "
      ++ ds ++ " and clearer instruction structure."

/-- `PromptEvaluationSystem._fallback_evaluation`, parameterised by the
hash and generator collaborators. -/
def fallback_evaluation (md5int : String → ℕ) (seeded : ℕ → PyRandom)
    (system_prompt user_input criterion_name criterion_description provider model : String) :
    FallbackResult :=
  let rng := fallback_rng md5int seeded system_prompt user_input criterion_name
  let final_score := fallback_final_score rng system_prompt
  let base_reasoning :=
    (reasoning_templates criterion_name criterion_description).getD (rng.choiceIdx 3) ""
  { score := final_score
  , reasoning := base_reasoning ++ " " ++ fallback_details final_score criterion_description
  , agent := provider ++ "-" ++ model ++ "-fallback" }

/-! ## Ranking (`PromptOptimizerComponent._evaluate_prompts`)

The driver collects, for each variation index `i` in order, the list of
scores of its successfully evaluated `(variation, test case)` pairs
(HTTP failures are skipped).  Variations whose list is empty are left out
of the `scores` dict; the others get `sum / len`.  The best variation is
`max(scores, key=scores.get)`, which walks the keys in insertion order and
keeps the first key whose value is strictly greater than the best so far,
so the first-seen key wins ties. -/

/-- The `scores` dict built by `_evaluate_prompts`, as an association list
in insertion (index) order: variation `i`, starting at index `start`, is
skipped when it has no successfully scored pair, and mapped to the mean of
its scores otherwise. -/
def buildScoresFrom : ℕ → List (List ℚ) → List (ℕ × ℚ)
  | _, [] => []
  | i, ss :: rest =>
    if ss.isEmpty then buildScoresFrom (i + 1) rest
    else (i, ss.sum / ss.length) :: buildScoresFrom (i + 1) rest

/-- The `scores` dict for the variations enumerated from index 0. -/
def buildScores (variationScores : List (List ℚ)) : List (ℕ × ℚ) := buildScoresFrom 0 variationScores

/-- Tail of Python `max(scores, key=scores.get)`: keep the current best
key unless a later value is strictly greater. -/
def pyMaxByValueAux : List (ℕ × ℚ) → ℕ → ℚ → ℕ
  | [], bk, _ => bk
  | (k, v) :: rest, bk, bv =>
    if bv < v then pyMaxByValueAux rest k v else pyMaxByValueAux rest bk bv

/-- Python `max(scores, key=scores.get)` over an association list in
insertion order; `none` on the empty dict (the code guards `if scores:`). -/
def pyMaxByValue : List (ℕ × ℚ) → Option ℕ
  | [] => none
  | (k, v) :: rest => some (pyMaxByValueAux rest k v)

/-- `best_variation_idx` of `_evaluate_prompts` as a function of the
per-variation score lists. -/
def selectBestVariation (variationScores : List (List ℚ)) : Option ℕ :=
  pyMaxByValue (buildScores variationScores)

/-! ## Helper lemmas -/

/-- `max(0, min(10, x))` always lands in `[0, 10]`. -/
theorem clampScore_range (x : ℚ) : 0 ≤ clampScore x ∧ clampScore x ≤ 10 :=
  ⟨le_max_left 0 _, max_le (by norm_num) (min_le_left 10 x)⟩

/-- Half-even rounding stays between any integer bounds of its argument. -/
theorem pyRound_bounds (q : ℚ) (a b : ℤ) (ha : (a : ℚ) ≤ q) (hb : q ≤ (b : ℚ)) :
    a ≤ pyRound q ∧ pyRound q ≤ b := by
  have hfa : a ≤ ⌊q⌋ := Int.le_floor.mpr ha
  have hfq : (⌊q⌋ : ℚ) ≤ q := Int.floor_le q
  have hfb : ⌊q⌋ ≤ b := by exact_mod_cast le_trans hfq hb
  unfold pyRound
  by_cases h1 : q - ⌊q⌋ < 1 / 2
  · rw [if_pos h1]; exact ⟨hfa, hfb⟩
  · rw [if_neg h1]
    have hge : (1 : ℚ) / 2 ≤ q - ⌊q⌋ := le_of_not_lt h1
    have hb1 : ⌊q⌋ + 1 ≤ b := by
      have hlt : (⌊q⌋ : ℚ) < b := by linarith
      have : ⌊q⌋ < b := by exact_mod_cast hlt
      omega
    by_cases h2 : q - ⌊q⌋ > 1 / 2
    · rw [if_pos h2]; exact ⟨by omega, hb1⟩
    · rw [if_neg h2]
      by_cases h3 : ⌊q⌋ % 2 = 0
      · rw [if_pos h3]; exact ⟨hfa, hfb⟩
      · rw [if_neg h3]; exact ⟨by omega, hb1⟩

/-- `split("\n")` never yields an empty list of segments. -/
theorem splitLinesList_ne_nil (cs : List Char) : splitLinesList cs ≠ [] := by
  induction cs with
  | nil => simp [splitLinesList]
  | cons c rest ih =>
    rw [splitLinesList]
    by_cases h : c = '\n'
    · simp [h]
    · simp only [if_neg h]
      cases hsl : splitLinesList rest with
      | nil => simp
      | cons l ls => simp

/-- `splitLines` never yields an empty list of lines. -/
theorem splitLines_ne_nil (s : String) : splitLines s ≠ [] := by
  unfold splitLines
  intro h
  exact splitLinesList_ne_nil s.toList (List.map_eq_nil_iff.mp h)

/-- When no line strips to `"---"`, the variation loop accumulates every
stripped line into a single group. -/
theorem variationsLoop_no_sep (lines : List String)
    (h : ∀ l ∈ lines, pyStrip l ≠ "---") (vars cur : List String) :
    variationsLoop lines vars cur =
      if (cur ++ lines.map pyStrip).isEmpty then vars
      else vars ++ [String.intercalate "\n" (cur ++ lines.map pyStrip)] := by
  induction lines generalizing vars cur with
  | nil => simp [variationsLoop]
  | cons l rest ih =>
    have hl : pyStrip l ≠ "---" := h l (List.mem_cons_self _ _)
    rw [variationsLoop, if_neg hl, ih (fun x hx => h x (List.mem_cons_of_mem _ hx))]
    have hassoc : (cur ++ [pyStrip l]) ++ rest.map pyStrip = cur ++ (l :: rest).map pyStrip := by
      simp
    rw [hassoc]

/-- When no line of the reply strips to `"---"`, `generate_variations`
returns exactly one element: the reply with every line stripped. -/
theorem parseVariations_no_sep (content : String)
    (h : ∀ l ∈ splitLines content, pyStrip l ≠ "---") :
    parseVariations content = [String.intercalate "\n" ((splitLines content).map pyStrip)] := by
  unfold parseVariations
  rw [variationsLoop_no_sep _ h]
  have hne : ((splitLines content).map pyStrip).isEmpty = false := by
    cases hs : splitLines content with
    | nil => exact absurd hs (splitLines_ne_nil content)
    | cons l ls => simp
  simp only [List.nil_append, hne]
  simp

/-- When no stripped line passes the numbered-line check, the test-case
loop never opens a group and returns the accumulator unchanged. -/
theorem testCasesLoop_no_boundary (lines : List String)
    (h : ∀ l ∈ lines, startsNewTestCase (pyStrip l) = false) (acc : List String) :
    testCasesLoop lines acc [] = acc := by
  induction lines generalizing acc with
  | nil => simp [testCasesLoop]
  | cons l rest ih =>
    have hl : startsNewTestCase (pyStrip l) = false := h l (List.mem_cons_self _ _)
    rw [testCasesLoop]
    simp only [hl, Bool.false_eq_true, if_false, List.isEmpty_nil, if_true]
    exact ih (fun x hx => h x (List.mem_cons_of_mem _ hx)) acc

/-- Every key produced by `buildScoresFrom start` is at least `start`. -/
theorem buildScoresFrom_key_ge (vs : List (List ℚ)) (start : ℕ) (p : ℕ × ℚ)
    (hp : p ∈ buildScoresFrom start vs) : start ≤ p.1 := by
  induction vs generalizing start with
  | nil => simp [buildScoresFrom] at hp
  | cons ss rest ih =>
    rw [buildScoresFrom] at hp
    by_cases h : ss.isEmpty
    · rw [if_pos h] at hp
      exact le_trans (Nat.le_succ start) (ih (start + 1) hp)
    · rw [if_neg h] at hp
      rcases List.mem_cons.mp hp with rfl | hp
      · exact le_refl start
      · exact le_trans (Nat.le_succ start) (ih (start + 1) hp)

/-- A variation whose score list is empty contributes no key to the score
map built from position `start`. -/
theorem buildScoresFrom_skips_empty (vs : List (List ℚ)) (start i : ℕ)
    (hi : vs.get? i = some ([] : List ℚ)) (p : ℕ × ℚ)
    (hp : p ∈ buildScoresFrom start vs) : p.1 ≠ start + i := by
  induction vs generalizing start i with
  | nil => simp at hi
  | cons ss rest ih =>
    cases i with
    | zero =>
      have hss : ss = [] := by simpa using hi
      subst hss
      rw [buildScoresFrom] at hp
      simp only [List.isEmpty_nil, if_true] at hp
      have := buildScoresFrom_key_ge rest (start + 1) p hp
      omega
    | succ j =>
      have hj : rest.get? j = some ([] : List ℚ) := by simpa using hi
      rw [buildScoresFrom] at hp
      by_cases h : ss.isEmpty
      · rw [if_pos h] at hp
        have := ih (start + 1) j hj hp
        omega
      · rw [if_neg h] at hp
        rcases List.mem_cons.mp hp with rfl | hp
        · simp
        · have := ih (start + 1) j hj hp
          omega

/-- The running best of the Python `max` walk is either kept (when nothing
later is strictly greater) or replaced by a strictly greater entry that
dominates the rest of the list. -/
theorem pyMaxByValueAux_spec (l : List (ℕ × ℚ)) (bk : ℕ) (bv : ℚ) :
    (pyMaxByValueAux l bk bv = bk ∧ ∀ p ∈ l, p.2 ≤ bv) ∨
    (∃ v, (pyMaxByValueAux l bk bv, v) ∈ l ∧ bv < v ∧ ∀ p ∈ l, p.2 ≤ v) := by
  induction l generalizing bk bv with
  | nil => left; simp [pyMaxByValueAux]
  | cons q rest ih =>
    obtain ⟨k, v⟩ := q
    rw [pyMaxByValueAux]
    by_cases h : bv < v
    · rw [if_pos h]
      rcases ih k v with ⟨heq, hall⟩ | ⟨w, hmem, hlt, hall⟩
      · right
        refine ⟨v, ?_, h, ?_⟩
        · rw [heq]; exact List.mem_cons_self _ _
        · intro p hp
          rcases List.mem_cons.mp hp with rfl | hp
          · exact le_refl v
          · exact hall p hp
      · right
        refine ⟨w, List.mem_cons_of_mem _ hmem, lt_trans h hlt, ?_⟩
        intro p hp
        rcases List.mem_cons.mp hp with rfl | hp
        · exact le_of_lt hlt
        · exact hall p hp
    · rw [if_neg h]
      rcases ih bk bv with ⟨heq, hall⟩ | ⟨w, hmem, hlt, hall⟩
      · left
        refine ⟨heq, ?_⟩
        intro p hp
        rcases List.mem_cons.mp hp with rfl | hp
        · exact not_lt.mp h
        · exact hall p hp
      · right
        refine ⟨w, List.mem_cons_of_mem _ hmem, hlt, ?_⟩
        intro p hp
        rcases List.mem_cons.mp hp with rfl | hp
        · exact le_of_lt (lt_of_le_of_lt (not_lt.mp h) hlt)
        · exact hall p hp

/-- The selected key of `max(scores, key=scores.get)` carries a value that
dominates every entry of the map. -/
theorem pyMaxByValue_argmax (l : List (ℕ × ℚ)) (b : ℕ)
    (hb : pyMaxByValue l = some b) : ∃ v, (b, v) ∈ l ∧ ∀ p ∈ l, p.2 ≤ v := by
  cases l with
  | nil => simp [pyMaxByValue] at hb
  | cons q rest =>
    obtain ⟨k, v⟩ := q
    have hb2 : pyMaxByValueAux rest k v = b := by simpa [pyMaxByValue] using hb
    rcases pyMaxByValueAux_spec rest k v with ⟨heq, hall⟩ | ⟨w, hmem, hlt, hall⟩
    · refine ⟨v, ?_, ?_⟩
      · rw [← hb2, heq]; exact List.mem_cons_self _ _
      · intro p hp
        rcases List.mem_cons.mp hp with rfl | hp
        · exact le_refl v
        · exact hall p hp
    · refine ⟨w, ?_, ?_⟩
      · rw [← hb2]; exact List.mem_cons_of_mem _ hmem
      · intro p hp
        rcases List.mem_cons.mp hp with rfl | hp
        · exact le_of_lt hlt
        · exact hall p hp

/-- The whole-reply fallback guarantees a non-empty result. -/
theorem ifEmpty_ne_nil {α : Type} (l : List α) (c : α) :
    (if l.isEmpty then [c] else l) ≠ [] := by
  cases l with
  | nil => simp
  | cons a t => simp

/-- `parseVariations` never returns an empty list. -/
theorem parseVariations_ne_nil (content : String) : parseVariations content ≠ [] := by
  unfold parseVariations
  exact ifEmpty_ne_nil _ _

/-- `parseTestCases` never returns an empty list. -/
theorem parseTestCases_ne_nil (content : String) : parseTestCases content ≠ [] := by
  unfold parseTestCases
  exact ifEmpty_ne_nil _ _

/-! ## Claim theorems -/

/-- C1: for every provider reply string, the Scalar Evaluator score
(`evaluate_response`) and the Multi-Perspective score extraction
(`_extract_score`) lie in `[0, 10]`: parsed numbers are clamped to that
range, and when no number is found the fixed defaults `5.0` (scalar) and
`7.0` (multi-perspective) are returned, which are themselves in range. -/
theorem scores_always_in_range :
    (∀ content : String,
        0 ≤ evaluate_response content ∧ evaluate_response content ≤ 10) ∧
    (∀ text : String, 0 ≤ extract_score text ∧ extract_score text ≤ 10) ∧
    evaluate_response "no digits here" = 5 ∧ extract_score "nothing numeric" = 7 := by
  refine ⟨?_, ?_, by decide, by decide⟩
  · intro content
    unfold evaluate_response
    cases searchNumber (pyStrip content).toList with
    | none => norm_num
    | some cap => exact clampScore_range _
  · intro text
    unfold extract_score
    cases pattern1Search text.toList with
    | some cap => exact clampScore_range _
    | none =>
      cases pattern2Search text.toList with
      | some cap => exact clampScore_range _
      | none =>
        cases pattern3Search text.toList with
        | some cap => exact clampScore_range _
        | none => norm_num

/-- C2 counterexample: two fallback invocations agreeing on the first 100
characters of the system prompt, the first 50 of the user input, the
criterion name and the length of the system prompt, but differing in the
criterion description, return the same score yet different reasoning
texts, because every reasoning template and every detail sentence
interpolates the description. -/
theorem fallback_reasoning_needs_description :
    (fallback_evaluation (fun _ => 0) (fun _ => ⟨fun _ => 0, fun _ => 0⟩)
        "sys" "user" "crit" "descA" "prov" "model").score =
      (fallback_evaluation (fun _ => 0) (fun _ => ⟨fun _ => 0, fun _ => 0⟩)
        "sys" "user" "crit" "descB" "prov" "model").score ∧
    (fallback_evaluation (fun _ => 0) (fun _ => ⟨fun _ => 0, fun _ => 0⟩)
        "sys" "user" "crit" "descA" "prov" "model").reasoning ≠
      (fallback_evaluation (fun _ => 0) (fun _ => ⟨fun _ => 0, fun _ => 0⟩)
        "sys" "user" "crit" "descB" "prov" "model").reasoning := by
  constructor
  · rfl
  · simp only [fallback_evaluation, fallback_details]
    split_ifs <;> decide

/-- C2 (amended): the fallback scorer is deterministic in (first 100
characters of `system_prompt`, first 50 characters of `user_input`,
criterion name) together with `len(system_prompt)` as far as the score is
concerned; the reasoning text is additionally a function of the criterion
description, so invocations that also agree on the description return
identical score and reasoning, whatever the hash and seeded-generator
collaborators do. -/
theorem fallback_deterministic (md5int : String → ℕ) (seeded : ℕ → PyRandom)
    (sp1 sp2 ui1 ui2 nm ds pv1 md1 pv2 md2 : String)
    (hsp : pyTake 100 sp1 = pyTake 100 sp2)
    (hui : pyTake 50 ui1 = pyTake 50 ui2)
    (hlen : sp1.length = sp2.length) :
    (fallback_evaluation md5int seeded sp1 ui1 nm ds pv1 md1).score =
      (fallback_evaluation md5int seeded sp2 ui2 nm ds pv2 md2).score ∧
    (fallback_evaluation md5int seeded sp1 ui1 nm ds pv1 md1).reasoning =
      (fallback_evaluation md5int seeded sp2 ui2 nm ds pv2 md2).reasoning := by
  have hrng : fallback_rng md5int seeded sp1 ui1 nm = fallback_rng md5int seeded sp2 ui2 nm := by
    unfold fallback_rng
    rw [hsp, hui]
  have hscore : fallback_final_score (fallback_rng md5int seeded sp1 ui1 nm) sp1 =
      fallback_final_score (fallback_rng md5int seeded sp2 ui2 nm) sp2 := by
    unfold fallback_final_score fallback_length_bonus
    rw [hrng, hlen]
  exact ⟨by simp only [fallback_evaluation]; exact hscore,
    by simp only [fallback_evaluation]; rw [hscore, hrng]⟩

/-- C2 witness: the determinism theorem applied at one concrete input. -/
theorem fallback_deterministic_witness :
    (fallback_evaluation (fun _ => 0) (fun _ => ⟨fun _ => 0, fun _ => 0⟩)
        "sys" "user" "crit" "desc" "prov" "model").score =
      (fallback_evaluation (fun _ => 0) (fun _ => ⟨fun _ => 0, fun _ => 0⟩)
        "sys" "user" "crit" "desc" "prov" "model").score ∧
    (fallback_evaluation (fun _ => 0) (fun _ => ⟨fun _ => 0, fun _ => 0⟩)
        "sys" "user" "crit" "desc" "prov" "model").reasoning =
      (fallback_evaluation (fun _ => 0) (fun _ => ⟨fun _ => 0, fun _ => 0⟩)
        "sys" "user" "crit" "desc" "prov" "model").reasoning :=
  fallback_deterministic (fun _ => 0) (fun _ => ⟨fun _ => 0, fun _ => 0⟩)
    "sys" "sys" "user" "user" "crit" "desc" "prov" "model" "prov" "model" rfl rfl rfl

/-- C3: whenever the collaborator generator's `random.random()` draws lie
in `[0, 1)`, the fallback score lies in `[5, 10]` and is a multiple of
`0.1`; moreover the base draw lies in `[5, 9.5]` and the length bonus is
non-negative. -/
theorem fallback_score_range (md5int : String → ℕ) (seeded : ℕ → PyRandom)
    (sp ui nm ds pv md : String)
    (h : ∀ n i, 0 ≤ (seeded n).randFloat i ∧ (seeded n).randFloat i < 1) :
    (5 ≤ (fallback_evaluation md5int seeded sp ui nm ds pv md).score ∧
      (fallback_evaluation md5int seeded sp ui nm ds pv md).score ≤ 10) ∧
    (∃ z : ℤ, (fallback_evaluation md5int seeded sp ui nm ds pv md).score = (z : ℚ) / 10) ∧
    (5 ≤ fallback_base_score (fallback_rng md5int seeded sp ui nm) ∧
      fallback_base_score (fallback_rng md5int seeded sp ui nm) ≤ 19 / 2) ∧
    0 ≤ fallback_length_bonus sp := by
  obtain ⟨h00, h01⟩ := h (md5int (pyTake 100 sp ++ pyTake 50 ui ++ nm)) 0
  obtain ⟨h10, h11⟩ := h (md5int (pyTake 100 sp ++ pyTake 50 ui ++ nm)) 1
  simp only [fallback_evaluation, fallback_final_score, fallback_base_score,
    fallback_length_bonus, fallback_rng]
  set rf0 := (seeded (md5int (pyTake 100 sp ++ pyTake 50 ui ++ nm))).randFloat 0 with hrf0
  set rf1 := (seeded (md5int (pyTake 100 sp ++ pyTake 50 ui ++ nm))).randFloat 1 with hrf1
  have hbase0 : (5 : ℚ) ≤ 5 + rf0 * (9 / 2) := by nlinarith
  have hbase1 : 5 + rf0 * (9 / 2) ≤ 19 / 2 := by nlinarith
  have hlen0 : (0 : ℚ) ≤ (sp.length : ℚ) / 500 := by positivity
  have hbon0 : (0 : ℚ) ≤ min 1 ((sp.length : ℚ) / 500) := le_min (by norm_num) hlen0
  have hbon1 : min 1 ((sp.length : ℚ) / 500) ≤ 1 := min_le_left _ _
  have hprod : (0 : ℚ) ≤ min 1 ((sp.length : ℚ) / 500) * rf1 := mul_nonneg hbon0 h10
  have hpre0 : (5 : ℚ) ≤ min 10 (5 + rf0 * (9 / 2) + min 1 ((sp.length : ℚ) / 500) * rf1) :=
    le_min (by norm_num) (by linarith)
  have hpre1 : min 10 (5 + rf0 * (9 / 2) + min 1 ((sp.length : ℚ) / 500) * rf1) ≤ 10 :=
    min_le_left _ _
  obtain ⟨hk0, hk1⟩ := pyRound_bounds
    ((min 10 (5 + rf0 * (9 / 2) + min 1 ((sp.length : ℚ) / 500) * rf1)) * 10) 50 100
    (by push_cast; linarith) (by push_cast; linarith)
  have hkq0 : (50 : ℚ) ≤
      (pyRound ((min 10 (5 + rf0 * (9 / 2) + min 1 ((sp.length : ℚ) / 500) * rf1)) * 10) : ℚ) := by
    exact_mod_cast hk0
  have hkq1 :
      (pyRound ((min 10 (5 + rf0 * (9 / 2) + min 1 ((sp.length : ℚ) / 500) * rf1)) * 10) : ℚ) ≤
        100 := by
    exact_mod_cast hk1
  refine ⟨⟨by linarith, by linarith⟩, ⟨pyRound _, rfl⟩, ⟨hbase0, hbase1⟩, hbon0⟩

/-- C3 witness: the range theorem applied with a concrete collaborator
generator whose draws all equal one half. -/
theorem fallback_score_range_witness :
    (5 ≤ (fallback_evaluation (fun _ => 0) (fun _ => ⟨fun _ => 1 / 2, fun _ => 0⟩)
        "sys" "user" "crit" "desc" "prov" "model").score ∧
      (fallback_evaluation (fun _ => 0) (fun _ => ⟨fun _ => 1 / 2, fun _ => 0⟩)
        "sys" "user" "crit" "desc" "prov" "model").score ≤ 10) ∧
    (∃ z : ℤ, (fallback_evaluation (fun _ => 0) (fun _ => ⟨fun _ => 1 / 2, fun _ => 0⟩)
        "sys" "user" "crit" "desc" "prov" "model").score = (z : ℚ) / 10) ∧
    (5 ≤ fallback_base_score (fallback_rng (fun _ => 0)
        (fun _ => ⟨fun _ => 1 / 2, fun _ => 0⟩) "sys" "user" "crit") ∧
      fallback_base_score (fallback_rng (fun _ => 0)
        (fun _ => ⟨fun _ => 1 / 2, fun _ => 0⟩) "sys" "user" "crit") ≤ 19 / 2) ∧
    0 ≤ fallback_length_bonus "sys" :=
  fallback_score_range (fun _ => 0) (fun _ => ⟨fun _ => 1 / 2, fun _ => 0⟩)
    "sys" "user" "crit" "desc" "prov" "model"
    (fun n i => ⟨by norm_num, by norm_num⟩)

/-- C4 counterexample: on a whitespace-only provider reply,
`generate_variations` and `generate_test_cases` do not fail with the
empty-completion error; they return a one-element result built from the
blank text (the claimed guard exists only in `generate_meta_prompt`). -/
theorem blank_reply_not_rejected :
    generate_variations (some "   ") = [""] ∧
    generate_test_cases (some "   ") = ["   "] := by
  constructor
  · decide
  · decide

/-- C4 (amended): only the meta-prompt generator fails with the
empty-completion error on a null, empty or whitespace-only reply;
`generate_variations` and `generate_test_cases` accept the blank text and
return a one-element result built from it. -/
theorem empty_reply_policy :
    (∀ c : Option String, pyStrip (c.getD "") = "" →
        ∃ msg, generate_meta_prompt c = Except.error msg) ∧
    generate_variations (some " ") = [""] ∧
    generate_test_cases (some " ") = [" "] ∧
    generate_variations none = [""] ∧
    generate_test_cases none = [""] := by
  refine ⟨?_, by decide, by decide, by decide, by decide⟩
  intro c hc
  cases c with
  | none => exact ⟨_, rfl⟩
  | some s =>
    simp only [Option.getD_some] at hc
    exact ⟨"OpenAI API returned empty content", by simp [generate_meta_prompt, hc]⟩

/-- C4 witness: the amended theorem applied to a concrete whitespace-only
reply. -/
theorem empty_reply_policy_witness :
    ∃ msg, generate_meta_prompt (some "  ") = Except.error msg :=
  empty_reply_policy.1 (some "  ") (by decide)

/-- C5 counterexample: the reply `" A"` holds no separator line, yet
`generate_variations` returns `["A"]` — a single element that is not equal
to the full reply, because every line is stripped before being joined. -/
theorem variation_not_full_reply :
    generate_variations (some " A") = ["A"] ∧
    generate_variations (some " A") ≠ [" A"] := by
  constructor
  · decide
  · decide

/-- C5 (amended): both parsers always return a non-empty sequence.  On a
reply with no line stripping to `"---"`, `generate_variations` returns
exactly one element — the reply with every line stripped of surrounding
whitespace (equal to the full reply whenever no line carries such
whitespace); on a reply with no numbered line and no non-blank paragraph,
`generate_test_cases` returns exactly the full reply as its one element. -/
theorem generators_never_empty :
    (∀ reply : Option String, generate_variations reply ≠ []) ∧
    (∀ reply : Option String, generate_test_cases reply ≠ []) ∧
    (∀ content : String, (∀ l ∈ splitLines content, pyStrip l ≠ "---") →
        generate_variations (some content) =
          [String.intercalate "\n" ((splitLines content).map pyStrip)]) ∧
    (∀ content : String,
        (∀ l ∈ splitLines content, startsNewTestCase (pyStrip l) = false) →
        (∀ p ∈ splitBlank content, pyStrip p = "") →
        generate_test_cases (some content) = [content]) := by
  refine ⟨?_, ?_, ?_, ?_⟩
  · intro reply
    exact parseVariations_ne_nil (reply.getD "")
  · intro reply
    exact parseTestCases_ne_nil (reply.getD "")
  · intro content h
    unfold generate_variations
    simp only [Option.getD_some]
    exact parseVariations_no_sep content h
  · intro content hlines hparas
    unfold generate_test_cases parseTestCases
    simp only [Option.getD_some]
    rw [testCasesLoop_no_boundary (splitLines content) hlines []]
    have hfil : ((splitBlank content).map pyStrip).filter (fun p => p != "") = [] := by
      rw [List.filter_eq_nil_iff]
      intro a ha
      obtain ⟨p, hp, rfl⟩ := List.mem_map.mp ha
      simp [hparas p hp]
    simp [hfil]

/-- C5 witness: the amended theorem's no-separator case applied to a
concrete reply. -/
theorem generators_never_empty_witness :
    generate_variations (some "one line") =
      [String.intercalate "\n" ((splitLines "one line").map pyStrip)] :=
  generators_never_empty.2.2.1 "one line" (by decide)

/-- C6 counterexample: the line `" --- "` is not exactly `"---"`, yet it
does act as a separator, because lines are stripped before the comparison:
the reply `"A\n --- \nB"` parses to two variations, not to a single
unsplit one. -/
theorem padded_separator_still_splits :
    generate_variations (some "A\n --- \nB") = ["A", "B"] ∧
    generate_variations (some "A\n --- \nB") ≠ ["A\n --- \nB"] := by
  constructor
  · decide
  · decide

/-- C6 (amended): `generate_variations` splits the reply on lines that are
exactly `"---"` after stripping surrounding whitespace: the synthetic
reply with three sections parses to exactly three elements, a padded
`" --- "` line also separates, and a line that does not strip to `"---"`
(such as `"----"`) never acts as a separator. -/
theorem variation_separator_semantics :
    generate_variations (some "A\n---\nB\n---\nC") = ["A", "B", "C"] ∧
    generate_variations (some "A\n --- \nB") = ["A", "B"] ∧
    (∀ content : String, (∀ l ∈ splitLines content, pyStrip l ≠ "---") →
        generate_variations (some content) =
          [String.intercalate "\n" ((splitLines content).map pyStrip)]) ∧
    generate_variations (some "A\n----\nB") = ["A\n----\nB"] := by
  refine ⟨by decide, by decide, ?_, by decide⟩
  intro content h
  unfold generate_variations
  simp only [Option.getD_some]
  exact parseVariations_no_sep content h

/-- C6 witness: the amended theorem's no-separator clause applied to a
concrete reply whose middle line is four hyphens. -/
theorem variation_separator_semantics_witness :
    generate_variations (some "x\n----\ny") =
      [String.intercalate "\n" ((splitLines "x\n----\ny").map pyStrip)] :=
  variation_separator_semantics.2.2.1 "x\n----\ny" (by decide)

/-- C7: `generate_test_cases` groups consecutive lines starting at each
line that begins with an ASCII digit immediately followed by a period: the
reply `"1. First\nDetail\n2. Second"` parses to exactly two entries, the
first holding the `"1. First"` and `"Detail"` lines, the second holding
`"2. Second"`. -/
theorem test_case_grouping :
    generate_test_cases (some "1. First\nDetail\n2. Second") =
      ["1. First\nDetail", "2. Second"] := by decide

/-- C8: `_extract_score` consults its three patterns in order — keyword
`score` followed by a number, then `N/10`, then `score`/`rating`/
`evaluation` eventually followed by a number — using the first match and
never a later pattern, and returns the default `7.0` when none matches. -/
theorem extract_score_pattern_order :
    (∀ (text : String) (cap : List Char), pattern1Search text.toList = some cap →
        extract_score text = clampScore (parseNumber cap)) ∧
    (∀ (text : String) (cap : List Char), pattern1Search text.toList = none →
        pattern2Search text.toList = some cap →
        extract_score text = clampScore (parseNumber cap)) ∧
    (∀ (text : String) (cap : List Char), pattern1Search text.toList = none →
        pattern2Search text.toList = none → pattern3Search text.toList = some cap →
        extract_score text = clampScore (parseNumber cap)) ∧
    (∀ text : String, pattern1Search text.toList = none →
        pattern2Search text.toList = none → pattern3Search text.toList = none →
        extract_score text = 7) := by
  refine ⟨?_, ?_, ?_, ?_⟩
  · intro text cap h1
    unfold extract_score
    rw [h1]
  · intro text cap h1 h2
    unfold extract_score
    rw [h1, h2]
  · intro text cap h1 h2 h3
    unfold extract_score
    rw [h1, h2, h3]
  · intro text h1 h2 h3
    unfold extract_score
    rw [h1, h2, h3]

/-- C8 witness: the second pattern fires on `"7/10"` once the first one
has failed. -/
theorem extract_score_pattern_order_witness :
    extract_score "7/10" = clampScore (parseNumber ['7']) :=
  extract_score_pattern_order.2.1 "7/10" ['7'] (by decide) (by decide)

/-- C9: in the ranking step of `_evaluate_prompts`, a variation with zero
successfully scored pairs is excluded from the score map, the selected
best variation carries a maximal average score, and for average scores
6, 8.5, 8.5 inserted in index order the selected best variation is index 1
(the first-seen maximum). -/
theorem evaluate_prompts_ranking :
    (∀ (vs : List (List ℚ)) (i : ℕ), vs.get? i = some ([] : List ℚ) →
        ∀ p ∈ buildScores vs, p.1 ≠ i) ∧
    (∀ (scores : List (ℕ × ℚ)) (b : ℕ), pyMaxByValue scores = some b →
        ∃ v, (b, v) ∈ scores ∧ ∀ p ∈ scores, p.2 ≤ v) ∧
    selectBestVariation [[6], [8, 9], [17 / 2]] = some 1 ∧
    pyMaxByValue [(0, 6), (1, 17 / 2), (2, 17 / 2)] = some 1 := by
  refine ⟨?_, pyMaxByValue_argmax, ?_, ?_⟩
  · intro vs i hi p hp
    have := buildScoresFrom_skips_empty vs 0 i hi p hp
    simpa using this
  · norm_num [selectBestVariation, buildScores, buildScoresFrom, pyMaxByValue, pyMaxByValueAux]
  · norm_num [pyMaxByValue, pyMaxByValueAux]

/-- C9 witness: the exclusion clause applied to a concrete score-list
family in which variation 0 has no scored pair. -/
theorem evaluate_prompts_ranking_witness :
    ((1 : ℕ), (6 : ℚ)).1 ≠ 0 :=
  evaluate_prompts_ranking.1 [[], [6]] 0 rfl ((1 : ℕ), (6 : ℚ))
    (by norm_num [buildScores, buildScoresFrom])

/-- C10: only a line whose first character is a digit and whose second
character is a period opens a new test-case group; a line beginning with a
multi-digit number followed by a period is never a boundary — it is
appended to the currently open group, or dropped when no numbered group
has started yet. -/
theorem multi_digit_not_boundary :
    (∀ (s : String) (c1 c2 : Char) (rest : List Char),
        s.toList = c1 :: c2 :: rest → c1.isDigit = true → c2.isDigit = true →
        startsNewTestCase s = false) ∧
    generate_test_cases (some "1. A\n10. Tenth") = ["1. A\n10. Tenth"] ∧
    generate_test_cases (some "10. Tenth\n1. A") = ["1. A"] := by
  refine ⟨?_, by decide, by decide⟩
  intro s c1 c2 rest hs h1 h2
  unfold startsNewTestCase
  rw [hs]
  have hne : c2 ≠ '.' := by
    intro h
    rw [h] at h2
    exact absurd h2 (by decide)
  simp [hne]

/-- C10 witness: the boundary check rejects the concrete line
`"10. Tenth"`. -/
theorem multi_digit_not_boundary_witness :
    startsNewTestCase "10. Tenth" = false :=
  multi_digit_not_boundary.1 "10. Tenth" '1' '0' ['.', ' ', 'T', 'e', 'n', 't', 'h']
    (by decide) (by decide) (by decide)
